import Mathlib

/-!
Shallow embedding of `posdata.py` (pyxis-roc/printerdata): a logger that
subscribes to a 3D-printer controller's status-update stream, aligns remote
timestamps against a frozen time origin, and appends motion samples to a CSV
sink.

Modelling conventions:
  * Python floats are modelled as `ℚ` (the alignment arithmetic is plain
    addition/subtraction; no rounding behaviour is claimed).
  * A Python dict payload is modelled as a record of `Option` fields, one per
    key the code reads; `none` means the key is absent (or mapped to `None`,
    which the code treats identically via `.get(k, None)` / `in`).
  * The CSV sink is modelled as the list of rows appended, in order; the
    header row and the `csv` module mechanics are out of scope.
  * `time.time_ns()` is an external wall clock; it is modelled as a function
    `clk : ℕ → ℕ` sampled at the index equal to the number of rows emitted so
    far (the code calls `time.time_ns()` exactly once per emitted row).
  * Raised Python exceptions are modelled as `Except` errors; an `Except.ok`
    result from `subscribe` stands for the network request being issued with
    that argument, an `Except.error` means the exception fired before any
    request was issued.
  * Console echo (`print(row)` when not quiet, stderr diagnostics) and
    `outh.flush()` touch no modelled state and are omitted.
-/

deriving instance DecidableEq for Except

namespace Posdata

/-- Payload of one sub-event: a Python dict restricted to the keys the code
reads (`live_position`, `live_velocity`, `state`, `filename`,
`total_duration`). `none` models an absent key. -/
structure EventData where
  live_position : Option (List ℚ) := none
  live_velocity : Option ℚ := none
  state : Option String := none
  filename : Option String := none
  total_duration : Option ℚ := none
deriving DecidableEq

/-- Mutable state of `PrinterMotionData` (fields assigned in `__init__`):
`self.filename`, `self.print_state`, `self.time_offset`. The `quiet` flag and
the file handle are not modelled (they affect only console echo / IO). -/
structure PMDState where
  filename : Option String
  print_state : Option String
  time_offset : Option ℚ
deriving DecidableEq

/-- `__init__`: `self.filename = None; self.print_state = None;
self.time_offset = None`. -/
def PMDState.init : PMDState := ⟨none, none, none⟩

/-- One CSV row as written by `motion_report` (the dict literal at lines
45-54 of `posdata.py`). -/
structure Row where
  filename : String
  rectime : ℕ
  time : ℚ
  origts : ℚ
  live_position_x : Option ℚ
  live_position_y : Option ℚ
  live_position_z : Option ℚ
  live_position_e : Option ℚ
  live_velocity : Option ℚ
deriving DecidableEq

/-- Python exceptions the modelled code can raise. -/
inductive PyError where
  /-- `ValueError` from `x, y, z, e = pos` when `pos` does not have exactly
  four elements (expected count, actual count). -/
  | unpackValueError (expected got : ℕ)
  /-- `NotImplementedError(f"\x7btimestamp\x7d: Notification \x7bk\x7d is not
  handled")` raised by `on_notification` for an unrecognized class name: the
  message carries the event timestamp and the offending class. -/
  | unhandledClassError (timestamp : ℚ) (className : String)
  /-- `UnboundLocalError`: a local variable was referenced before assignment
  (carries the variable name). Raised at line 118 of `posdata.py`, where the
  diagnostic f-string for an unrecognized method reads `timestamp`, which is
  assigned only inside the recognized-method branch. -/
  | unboundLocalError (varName : String)
  /-- `ValueError(f"\x7bo\x7d is not in printer.objects.list")` raised by
  `subscribe` (carries the offending object name). -/
  | subscribeValueError (objName : String)
deriving DecidableEq

/-- `self.filename or 'unknown'` (line 45): Python `or` yields the right
operand when the left is falsy, and both `None` and the empty string are
falsy. -/
def pyFilenameOrUnknown : Option String → String
  | none => "unknown"
  | some s => if s = "" then "unknown" else s

/-- The row dict literal of `motion_report` (lines 45-54), given the already
unpacked position components `x, y, z, e` and the ambient `time.time_ns()`
value `rectime`. -/
def mkRow (st : PMDState) (rectime : ℕ) (timestamp off : ℚ)
    (x y z e : Option ℚ) (vel : Option ℚ) : Row :=
  { filename := pyFilenameOrUnknown st.filename
    rectime := rectime
    time := timestamp + off
    origts := timestamp
    live_position_x := x
    live_position_y := y
    live_position_z := z
    live_position_e := e
    live_velocity := vel }

/-- `PrinterMotionData.motion_report(timestamp, data)` (lines 37-60).
Returns the (unchanged) state, the row appended to the sink (`none` when the
sample is dropped because `self.time_offset is None`), and the Python return
value (`True`). Raises `ValueError` when `live_position` is present but is
not a four-element sequence (`x, y, z, e = pos`). -/
def motion_report (st : PMDState) (rectime : ℕ) (timestamp : ℚ)
    (data : EventData) : Except PyError (PMDState × Option Row × Bool) :=
  match st.time_offset with
  | none => .ok (st, none, true)
  | some off =>
    match data.live_position with
    | none =>
      .ok (st, some (mkRow st rectime timestamp off none none none none
        data.live_velocity), true)
    | some [x, y, z, e] =>
      .ok (st, some (mkRow st rectime timestamp off (some x) (some y) (some z)
        (some e) data.live_velocity), true)
    | some l => .error (.unpackValueError 4 l.length)

/-- `PrinterMotionData.print_stats(timestamp, data)` (lines 62-78): update
`print_state` if `'state' in data`, `filename` if `'filename' in data`, and
set `time_offset = data['total_duration'] - timestamp` if it is still `None`
and `'total_duration' in data`. Never raises; only state, no sink rows. -/
def print_stats (st : PMDState) (timestamp : ℚ) (data : EventData) :
    PMDState :=
  let st1 := match data.state with
    | some s => { st with print_state := some s }
    | none => st
  let st2 := match data.filename with
    | some f => { st1 with filename := some f }
    | none => st1
  match st2.time_offset, data.total_duration with
  | none, some d => { st2 with time_offset := some (d - timestamp) }
  | _, _ => st2

/-- Iterated `print_stats` over a list of `(timestamp, data)` events, in
order. -/
def print_stats_run : PMDState → List (ℚ × EventData) → PMDState
  | st, [] => st
  | st, (ts, d) :: rest => print_stats_run (print_stats st ts d) rest

/-- One notification as delivered to `on_notification`: the method name and,
for the recognized method, the payload pair `(message, timestamp)` where
`message` is a dict from class name to field payload (modelled as an ordered
association list, matching Python dict iteration order). For an unrecognized
method the payload is never inspected by the code. -/
structure Notif where
  method : String
  message : List (String × EventData)
  timestamp : ℚ
deriving DecidableEq

/-- The `for k in message:` dispatch loop of `on_notification` (lines
109-116): route `motion_report` / `print_stats` entries, raise
`NotImplementedError` (naming timestamp and class) on anything else.
Returns the rows appended to the sink before any exception, and either the
final state or the exception. `clk` is the wall clock, `n` the number of rows
emitted so far. -/
def dispatch_message (clk : ℕ → ℕ) (n : ℕ) (st : PMDState) (timestamp : ℚ) :
    List (String × EventData) → List Row × Except PyError PMDState
  | [] => ([], .ok st)
  | (k, d) :: rest =>
    if k = "motion_report" then
      match motion_report st (clk n) timestamp d with
      | .error e => ([], .error e)
      | .ok (st1, none, _) => dispatch_message clk n st1 timestamp rest
      | .ok (st1, some r, _) =>
        (r :: (dispatch_message clk (n + 1) st1 timestamp rest).1,
          (dispatch_message clk (n + 1) st1 timestamp rest).2)
    else if k = "print_stats" then
      dispatch_message clk n (print_stats st timestamp d) timestamp rest
    else
      ([], .error (.unhandledClassError timestamp k))

/-- `PrinterStatus.on_notification(method, data)` (lines 101-119): only
`"notify_status_update"` is recognized; its payload `(message, timestamp)` is
dispatched entry by entry. Any other method reaches line 118, whose
diagnostic f-string reads the local `timestamp` before it was ever assigned,
so Python raises `UnboundLocalError` there (the
`NotImplementedError` at line 119 is never reached). -/
def on_notification (clk : ℕ → ℕ) (n : ℕ) (st : PMDState) (nf : Notif) :
    List Row × Except PyError PMDState :=
  if nf.method = "notify_status_update" then
    dispatch_message clk n st nf.timestamp nf.message
  else
    ([], .error (.unboundLocalError "timestamp"))

/-- A whole run: notifications processed strictly in arrival order; an
exception aborts the run (no later notification is processed), and the rows
appended before it stay in the sink. -/
def run_notifications (clk : ℕ → ℕ) (n : ℕ) (st : PMDState) :
    List Notif → List Row × Except PyError PMDState
  | [] => ([], .ok st)
  | nf :: rest =>
    match on_notification clk n st nf with
    | (rows, .error e) => (rows, .error e)
    | (rows, .ok st1) =>
      (rows ++ (run_notifications clk (n + rows.length) st1 rest).1,
        (run_notifications clk (n + rows.length) st1 rest).2)

/-- Python dict insertion `obj[o] = None` on the keys list: duplicate keys
keep their first position (the stored value is always `None`, so only key
order matters). -/
def dictInsert (keys : List String) (o : String) : List String :=
  if o ∈ keys then keys else keys ++ [o]

/-- The validation loop of `PrinterStatus.subscribe` (lines 133-139): for
each requested object in order, raise `ValueError` if it is not in
`objects_list`, otherwise insert it into the `obj` dict. -/
def subscribe_build (objects_list : List String) :
    List String → List String → Except PyError (List String)
  | acc, [] => .ok acc
  | acc, o :: rest =>
    if o ∈ objects_list then subscribe_build objects_list (dictInsert acc o) rest
    else .error (.subscribeValueError o)

/-- `PrinterStatus.subscribe(objects)` (lines 133-141): an `.ok keys` result
stands for the network call `printer.objects.subscribe` being issued with the
dict mapping each of `keys` to `None`; an `.error` means the `ValueError`
fired inside the loop, before the call at line 141 was reached. -/
def subscribe (objects_list objects : List String) :
    Except PyError (List String) :=
  subscribe_build objects_list [] objects

/-! ### Characterization lemmas -/

/-- `print_stats` on the `time_offset` field: set from the first
duration-carrying event while still absent, untouched otherwise. -/
theorem print_stats_time_offset (st : PMDState) (ts : ℚ) (d : EventData) :
    (print_stats st ts d).time_offset =
      match st.time_offset, d.total_duration with
      | none, some dur => some (dur - ts)
      | _, _ => st.time_offset := by
  unfold print_stats
  cases d.state <;> cases d.filename <;>
    cases h : st.time_offset <;> cases d.total_duration <;> simp [h]

/-- `print_stats` on the `filename` field: overwritten when the event carries
one, untouched otherwise. -/
theorem print_stats_filename (st : PMDState) (ts : ℚ) (d : EventData) :
    (print_stats st ts d).filename =
      match d.filename with
      | some f => some f
      | none => st.filename := by
  unfold print_stats
  cases d.state <;> cases d.filename <;>
    cases h : st.time_offset <;> cases d.total_duration <;> simp [h]

/-- Once `time_offset` is set, no later `print_stats` event changes it. -/
theorem print_stats_run_offset_frozen (st : PMDState) (v : ℚ)
    (evs : List (ℚ × EventData)) (h : st.time_offset = some v) :
    (print_stats_run st evs).time_offset = some v := by
  induction evs generalizing st with
  | nil => simpa [print_stats_run] using h
  | cons e rest ih =>
    obtain ⟨ts, d⟩ := e
    rw [print_stats_run]
    apply ih
    rw [print_stats_time_offset, h]

/-- `motion_report` while the origin is absent: no row, state unchanged,
returns `True`. -/
theorem motion_report_no_origin (st : PMDState) (rectime : ℕ) (ts : ℚ)
    (d : EventData) (h : st.time_offset = none) :
    motion_report st rectime ts d = .ok (st, none, true) := by
  unfold motion_report; rw [h]

/-- `motion_report` once the origin is set, as a case split on
`live_position`. -/
theorem motion_report_origin_eq (st : PMDState) (off : ℚ) (rectime : ℕ)
    (ts : ℚ) (d : EventData) (hoff : st.time_offset = some off) :
    motion_report st rectime ts d =
      match d.live_position with
      | none => .ok (st, some (mkRow st rectime ts off none none none none
          d.live_velocity), true)
      | some [x, y, z, e] => .ok (st, some (mkRow st rectime ts off (some x)
          (some y) (some z) (some e) d.live_velocity), true)
      | some l => .error (.unpackValueError 4 l.length) := by
  unfold motion_report; rw [hoff]

/-! ### Claims -/

/-- The offset determined by the first event of the sequence that carries a
`total_duration` field (the spec's `first_total_duration -
first_event_timestamp`); `none` when no event qualifies. -/
def firstQualifyingOffset : List (ℚ × EventData) → Option ℚ
  | [] => none
  | (ts, d) :: rest =>
    match d.total_duration with
    | some dur => some (dur - ts)
    | none => firstQualifyingOffset rest

/-- C1: over any sequence of `print_stats` events started with the offset
absent, the stored `time_offset` afterwards is exactly the value computed
from the first event carrying `total_duration`
(`first_total_duration - first_event_timestamp`); later duration-bearing
events leave it unchanged. -/
theorem c1_time_origin_freezes (st : PMDState) (evs : List (ℚ × EventData))
    (h : st.time_offset = none) :
    (print_stats_run st evs).time_offset = firstQualifyingOffset evs := by
  induction evs generalizing st with
  | nil => simpa [print_stats_run, firstQualifyingOffset] using h
  | cons e rest ih =>
    obtain ⟨ts, d⟩ := e
    rw [print_stats_run, firstQualifyingOffset]
    cases hd : d.total_duration with
    | none =>
      apply ih
      rw [print_stats_time_offset, h, hd]
    | some dur =>
      apply print_stats_run_offset_frozen
      rw [print_stats_time_offset, h, hd]

/-- Witness for C1 at a concrete two-event run, both events carrying a
duration. -/
theorem c1_time_origin_freezes_witness :
    PMDState.init.time_offset = none ∧
    (print_stats_run PMDState.init
        [(2, { total_duration := some 10 }),
         (7, { total_duration := some 50 })]).time_offset =
      firstQualifyingOffset
        [(2, { total_duration := some 10 }),
         (7, { total_duration := some 50 })] :=
  ⟨rfl, c1_time_origin_freezes _ _ rfl⟩

/-- While the origin is absent, a status-update bundle made of
`motion_report` entries appends nothing and leaves the state untouched. -/
theorem dispatch_all_motion_no_origin (clk : ℕ → ℕ) (n : ℕ) (st : PMDState)
    (ts : ℚ) (msg : List (String × EventData)) (h : st.time_offset = none)
    (hm : ∀ p ∈ msg, p.1 = "motion_report") :
    dispatch_message clk n st ts msg = ([], .ok st) := by
  induction msg with
  | nil => rfl
  | cons p rest ih =>
    obtain ⟨k, d⟩ := p
    have hk : k = "motion_report" := hm _ (List.mem_cons_self _ _)
    subst hk
    rw [dispatch_message, motion_report_no_origin st (clk n) ts d h]
    simpa using ih fun p hp => hm p (List.mem_cons_of_mem _ hp)

/-- C2: any run made only of motion-report bundles delivered while the time
origin is still absent appends zero rows to the sink and leaves the state
exactly as it was — the dropped samples are not buffered anywhere, so
nothing about them can be emitted after the origin is later established. -/
theorem c2_no_emission_before_origin (clk : ℕ → ℕ) (n : ℕ) (st : PMDState)
    (evs : List Notif) (h : st.time_offset = none)
    (hm : ∀ nf ∈ evs, nf.method = "notify_status_update" ∧
      ∀ p ∈ nf.message, p.1 = "motion_report") :
    run_notifications clk n st evs = ([], .ok st) := by
  induction evs generalizing n with
  | nil => rfl
  | cons nf rest ih =>
    obtain ⟨hmeth, hcls⟩ := hm nf (List.mem_cons_self _ _)
    have hdisp : on_notification clk n st nf = ([], .ok st) := by
      rw [on_notification, if_pos hmeth]
      exact dispatch_all_motion_no_origin clk n st nf.timestamp nf.message h hcls
    rw [run_notifications, hdisp]
    simpa using ih (n + 0) fun nf' h' => hm nf' (List.mem_cons_of_mem _ h')

/-- Witness for C2: two motion bundles from the initial state. -/
theorem c2_no_emission_before_origin_witness :
    PMDState.init.time_offset = none ∧
    run_notifications (fun _ => 0) 0 PMDState.init
      [⟨"notify_status_update", [("motion_report",
          { live_position := some [1, 2, 3, 4], live_velocity := some 5 })], 3⟩,
       ⟨"notify_status_update", [("motion_report", {})], 4⟩] =
      ([], .ok PMDState.init) :=
  ⟨rfl, c2_no_emission_before_origin _ _ _ _ rfl (by
    intro nf hnf
    simp only [List.mem_cons, List.mem_singleton] at hnf
    rcases hnf with rfl | rfl | h
    · exact ⟨rfl, by intro p hp; simp only [List.mem_singleton] at hp; subst hp; rfl⟩
    · exact ⟨rfl, by intro p hp; simp only [List.mem_singleton] at hp; subst hp; rfl⟩
    · cases h)⟩

/-- C3: once `print_stats` has established the origin from an event carrying
`total_duration = dur` at remote time `ts0`, the stored offset is
`dur - ts0`, and every row `motion_report` emits afterwards has
`time = ts + offset` and `origts = ts` for the event's raw remote timestamp
`ts`. -/
theorem c3_alignment_arithmetic (st : PMDState) (ts0 : ℚ) (d0 : EventData)
    (dur : ℚ) (rectime : ℕ) (ts : ℚ) (d : EventData) (stO : PMDState)
    (r : Row) (b : Bool) (h0 : st.time_offset = none)
    (hd0 : d0.total_duration = some dur)
    (hrun : motion_report (print_stats st ts0 d0) rectime ts d =
      .ok (stO, some r, b)) :
    (print_stats st ts0 d0).time_offset = some (dur - ts0) ∧
    r.time = ts + (dur - ts0) ∧ r.origts = ts := by
  have hoff : (print_stats st ts0 d0).time_offset = some (dur - ts0) := by
    rw [print_stats_time_offset, h0, hd0]
  refine ⟨hoff, ?_⟩
  rw [motion_report_origin_eq _ _ _ _ _ hoff] at hrun
  rcases hp : d.live_position with _ | ⟨_ | ⟨x, _ | ⟨y, _ | ⟨z, _ | ⟨e, _ | ⟨w, l⟩⟩⟩⟩⟩⟩ <;>
    rw [hp] at hrun <;> simp [Except.ok.injEq, Prod.mk.injEq] at hrun <;>
    obtain ⟨-, hr, -⟩ := hrun <;> subst hr <;> exact ⟨rfl, rfl⟩

/-- Witness for C3 at the spec's concrete numbers: the establishing event has
`total_duration = 100` at remote time `0`, so the offset is `100`; a motion
event at remote time `5` yields `time = 105` and `origts = 5`. -/
theorem c3_alignment_arithmetic_witness :
    PMDState.init.time_offset = none ∧
    (({} : EventData) : EventData).total_duration = none ∧
    ((print_stats PMDState.init 0 { total_duration := some 100 }).time_offset
        = some (100 - 0) ∧
      (mkRow (print_stats PMDState.init 0 { total_duration := some 100 }) 7 5
          (100 - 0) none none none none none).time = 5 + (100 - 0) ∧
      (mkRow (print_stats PMDState.init 0 { total_duration := some 100 }) 7 5
          (100 - 0) none none none none none).origts = 5) ∧
    (5 : ℚ) + (100 - 0) = 105 :=
  ⟨rfl, rfl,
    c3_alignment_arithmetic PMDState.init 0 { total_duration := some 100 }
      100 7 5 {}
      (print_stats PMDState.init 0 { total_duration := some 100 })
      (mkRow (print_stats PMDState.init 0 { total_duration := some 100 }) 7 5
        (100 - 0) none none none none none)
      true rfl rfl rfl,
    by norm_num⟩

/-- Splitting the dispatch loop: when the first part of a bundle is handled
without an exception, the whole bundle processes that part first (advancing
the wall-clock index by the rows it emitted) and then the rest. -/
theorem dispatch_message_append (clk : ℕ → ℕ) (ts : ℚ)
    (pre : List (String × EventData)) :
    ∀ (n : ℕ) (st : PMDState) (suf : List (String × EventData))
      (rows0 : List Row) (st0 : PMDState),
      dispatch_message clk n st ts pre = (rows0, .ok st0) →
      dispatch_message clk n st ts (pre ++ suf) =
        (rows0 ++ (dispatch_message clk (n + rows0.length) st0 ts suf).1,
          (dispatch_message clk (n + rows0.length) st0 ts suf).2) := by
  induction pre with
  | nil =>
    intro n st suf rows0 st0 h
    rw [dispatch_message] at h
    obtain ⟨h1, h2⟩ := Prod.mk.injEq _ _ _ _ ▸ h
    obtain rfl := h1.symm
    obtain rfl : st = st0 := by
      cases h2.symm
      rfl
    simp
  | cons p pre ih =>
    intro n st suf rows0 st0 h
    obtain ⟨k, d⟩ := p
    rw [List.cons_append]
    rw [dispatch_message] at h ⊢
    by_cases hk : k = "motion_report"
    · rw [if_pos hk] at h ⊢
      cases hmr : motion_report st (clk n) ts d with
      | error e =>
        rw [hmr] at h
        simp at h
      | ok res =>
        rw [hmr] at h
        obtain ⟨st1, orow, b⟩ := res
        cases orow with
        | none =>
          exact ih n st1 suf rows0 st0 h
        | some r =>
          dsimp only at h ⊢
          rw [Prod.mk.injEq] at h
          obtain ⟨h1, h2⟩ := h
          subst h1
          have hD : dispatch_message clk (n + 1) st1 ts pre =
              ((dispatch_message clk (n + 1) st1 ts pre).1, .ok st0) := by
            rw [← h2]
          rw [ih (n + 1) st1 suf _ st0 hD]
          have hn : n + 1 + (dispatch_message clk (n + 1) st1 ts pre).1.length =
              n + ((dispatch_message clk (n + 1) st1 ts pre).1.length + 1) := by
            omega
          rw [hn]
          simp
    · rw [if_neg hk] at h ⊢
      by_cases hk2 : k = "print_stats"
      · rw [if_pos hk2] at h ⊢
        exact ih n (print_stats st ts d) suf rows0 st0 h
      · rw [if_neg hk2] at h
        simp at h

/-- C4: a status-update bundle whose class mapping reaches an entry with a
class other than `"motion_report"` and `"print_stats"` makes the run fail
with the `NotImplementedError` naming that class and the event timestamp;
the sink keeps exactly the rows appended before the offending entry, and no
later notification of the run appends anything. -/
theorem c4_unknown_class_rejection (clk : ℕ → ℕ) (n : ℕ) (st : PMDState)
    (ts : ℚ) (pre : List (String × EventData)) (k : String) (d : EventData)
    (rest : List (String × EventData)) (after : List Notif)
    (rows0 : List Row) (st0 : PMDState)
    (hk1 : k ≠ "motion_report") (hk2 : k ≠ "print_stats")
    (hpre : dispatch_message clk n st ts pre = (rows0, .ok st0)) :
    run_notifications clk n st
        (⟨"notify_status_update", pre ++ (k, d) :: rest, ts⟩ :: after) =
      (rows0, .error (.unhandledClassError ts k)) := by
  have hbad : dispatch_message clk (n + rows0.length) st0 ts ((k, d) :: rest) =
      ([], .error (.unhandledClassError ts k)) := by
    rw [dispatch_message, if_neg hk1, if_neg hk2]
  have hdisp : dispatch_message clk n st ts (pre ++ (k, d) :: rest) =
      (rows0, .error (.unhandledClassError ts k)) := by
    rw [dispatch_message_append clk ts pre n st _ rows0 st0 hpre, hbad]
    simp
  have hnot : on_notification clk n st
      ⟨"notify_status_update", pre ++ (k, d) :: rest, ts⟩ =
      (rows0, .error (.unhandledClassError ts k)) := by
    rw [on_notification, if_pos rfl]
    exact hdisp
  rw [run_notifications, hnot]

/-- Witness for C4: a bundle that first carries a handled `print_stats`
entry and then the unknown class `"toolhead"`, followed by one more
notification that is indeed never processed. -/
theorem c4_unknown_class_rejection_witness :
    ("toolhead" ≠ "motion_report" ∧ "toolhead" ≠ "print_stats" ∧
      dispatch_message (fun _ => 0) 0 PMDState.init 3
        [("print_stats", { state := some "printing" })] =
        ([], .ok ⟨none, some "printing", none⟩)) ∧
    run_notifications (fun _ => 0) 0 PMDState.init
        [⟨"notify_status_update",
          [("print_stats", { state := some "printing" })] ++
            [("toolhead", { filename := some "x.gcode" })], 3⟩,
         ⟨"notify_status_update", [("print_stats", { state := some "paused" })], 4⟩] =
      ([], .error (.unhandledClassError 3 "toolhead")) :=
  ⟨⟨by decide, by decide, by decide⟩,
    c4_unknown_class_rejection (fun _ => 0) 0 PMDState.init 3
      [("print_stats", { state := some "printing" })] "toolhead"
      { filename := some "x.gcode" } []
      [⟨"notify_status_update", [("print_stats", { state := some "paused" })], 4⟩]
      [] ⟨none, some "printing", none⟩
      (by decide) (by decide) (by decide)⟩

/-- Any row successfully emitted by `motion_report` carries the filename the
state held, passed through Python's falsy-`or` (`self.filename or
'unknown'`). -/
theorem motion_report_row_filename (st : PMDState) (rectime : ℕ) (ts : ℚ)
    (d : EventData) (stO : PMDState) (r : Row) (b : Bool)
    (h : motion_report st rectime ts d = .ok (stO, some r, b)) :
    r.filename = pyFilenameOrUnknown st.filename := by
  cases hoff : st.time_offset with
  | none =>
    rw [motion_report_no_origin _ _ _ _ hoff] at h
    simp at h
  | some off =>
    rw [motion_report_origin_eq _ _ _ _ _ hoff] at h
    rcases hp : d.live_position with _ | ⟨_ | ⟨x, _ | ⟨y, _ | ⟨z, _ | ⟨e, _ | ⟨w, l⟩⟩⟩⟩⟩⟩ <;>
      rw [hp] at h <;> simp [Except.ok.injEq, Prod.mk.injEq] at h <;>
      obtain ⟨-, hr, -⟩ := h <;> subst hr <;> rfl

/-- C5 (amended): a `print_stats` event with no `filename` field leaves the
stored filename unchanged, and the next emitted motion row carries that
stored filename run through the sink's falsy substitution: the previously
set filename when it is a non-empty string, and the sentinel `"unknown"`
when it was never set — or when the set filename is the empty string, since
`self.filename or 'unknown'` treats `""` as falsy too. -/
theorem c5_filename_stickiness (st : PMDState) (ts : ℚ) (d : EventData)
    (hfn : d.filename = none) :
    (print_stats st ts d).filename = st.filename ∧
    ∀ (rectime : ℕ) (ts2 : ℚ) (d2 : EventData) (stO : PMDState) (r : Row)
      (b : Bool),
      motion_report (print_stats st ts d) rectime ts2 d2 =
        .ok (stO, some r, b) →
      r.filename = pyFilenameOrUnknown st.filename := by
  have hf : (print_stats st ts d).filename = st.filename := by
    rw [print_stats_filename, hfn]
  refine ⟨hf, fun rectime ts2 d2 stO r b hrun => ?_⟩
  rw [motion_report_row_filename _ _ _ _ _ _ _ hrun, hf]

/-- Witness for C5: from a state with a set non-empty filename and the
origin established, a filename-less `print_stats` event keeps the filename
and the next row carries it. -/
theorem c5_filename_stickiness_witness :
    ({ state := some "paused" } : EventData).filename = none ∧
    ((print_stats ⟨some "part.gcode", none, some 100⟩ 6
        { state := some "paused" }).filename = some "part.gcode" ∧
      motion_report (print_stats ⟨some "part.gcode", none, some 100⟩ 6
          { state := some "paused" }) 9 5 { live_velocity := some 2 } =
        .ok (print_stats ⟨some "part.gcode", none, some 100⟩ 6
            { state := some "paused" },
          some ⟨"part.gcode", 9, 5 + 100, 5, none, none, none, none, some 2⟩,
          true) ∧
      ("part.gcode" : String) =
        pyFilenameOrUnknown (some "part.gcode")) :=
  ⟨rfl,
    (c5_filename_stickiness ⟨some "part.gcode", none, some 100⟩ 6
        { state := some "paused" } rfl).1,
    rfl,
    (c5_filename_stickiness ⟨some "part.gcode", none, some 100⟩ 6
        { state := some "paused" } rfl).2 9 5 { live_velocity := some 2 }
      (print_stats ⟨some "part.gcode", none, some 100⟩ 6
        { state := some "paused" })
      ⟨"part.gcode", 9, 5 + 100, 5, none, none, none, none, some 2⟩
      true rfl⟩

/-- Counterexample for C5 as stated: the remote can legitimately set the
filename to the empty string; a later filename-less event leaves it stored
as `""`, yet the next motion row carries the sentinel `"unknown"` instead of
that previously set value, because `self.filename or 'unknown'` treats the
empty string as falsy. -/
theorem c5_filename_stickiness_cex :
    (print_stats (print_stats PMDState.init 0
          { filename := some "", total_duration := some 100 }) 1
        { state := some "printing" }).filename = some "" ∧
    ({ state := some "printing" } : EventData).filename = none ∧
    motion_report (print_stats (print_stats PMDState.init 0
          { filename := some "", total_duration := some 100 }) 1
        { state := some "printing" }) 9 5 { live_velocity := some 2 } =
      .ok (print_stats (print_stats PMDState.init 0
            { filename := some "", total_duration := some 100 }) 1
          { state := some "printing" },
        some ⟨"unknown", 9, 5 + (100 - 0), 5, none, none, none, none, some 2⟩,
        true) ∧
    ("unknown" : String) ≠ "" :=
  ⟨rfl, rfl, rfl, by decide⟩

/-- C6: with the origin set, each of `live_position` and `live_velocity` is
independently absent-tolerant: a missing position yields a row whose four
position columns are all empty with the velocity column carrying the
event's value, and a missing velocity yields an empty velocity column with
the position columns populated from the four components. -/
theorem c6_absent_field_tolerance (st : PMDState) (off : ℚ) (rectime : ℕ)
    (ts : ℚ) (d : EventData) (hoff : st.time_offset = some off) :
    (d.live_position = none →
      motion_report st rectime ts d = .ok (st, some (mkRow st rectime ts off
          none none none none d.live_velocity), true) ∧
      (mkRow st rectime ts off none none none none
          d.live_velocity).live_position_x = none ∧
      (mkRow st rectime ts off none none none none
          d.live_velocity).live_position_y = none ∧
      (mkRow st rectime ts off none none none none
          d.live_velocity).live_position_z = none ∧
      (mkRow st rectime ts off none none none none
          d.live_velocity).live_position_e = none ∧
      (mkRow st rectime ts off none none none none
          d.live_velocity).live_velocity = d.live_velocity) ∧
    (∀ x y z e, d.live_position = some [x, y, z, e] →
      d.live_velocity = none →
      motion_report st rectime ts d = .ok (st, some (mkRow st rectime ts off
          (some x) (some y) (some z) (some e) none), true) ∧
      (mkRow st rectime ts off (some x) (some y) (some z) (some e)
          none).live_velocity = none ∧
      (mkRow st rectime ts off (some x) (some y) (some z) (some e)
          none).live_position_x = some x ∧
      (mkRow st rectime ts off (some x) (some y) (some z) (some e)
          none).live_position_y = some y ∧
      (mkRow st rectime ts off (some x) (some y) (some z) (some e)
          none).live_position_z = some z ∧
      (mkRow st rectime ts off (some x) (some y) (some z) (some e)
          none).live_position_e = some e) := by
  constructor
  · intro hp
    rw [motion_report_origin_eq _ _ _ _ _ hoff, hp]
    exact ⟨rfl, rfl, rfl, rfl, rfl, rfl⟩
  · intro x y z e hp hv
    rw [motion_report_origin_eq _ _ _ _ _ hoff, hp, hv]
    exact ⟨rfl, rfl, rfl, rfl, rfl, rfl⟩

/-- Witness for C6, one event with velocity only and one with position
only. -/
theorem c6_absent_field_tolerance_witness :
    ((⟨none, none, some 100⟩ : PMDState).time_offset = some 100 ∧
      ({ live_velocity := some 7 } : EventData).live_position = none ∧
      ({ live_position := some [1, 2, 3, 4] } : EventData).live_velocity =
        none) ∧
    motion_report ⟨none, none, some 100⟩ 3 5 { live_velocity := some 7 } =
      .ok (⟨none, none, some 100⟩, some (mkRow ⟨none, none, some 100⟩ 3 5 100
        none none none none (some 7)), true) ∧
    motion_report ⟨none, none, some 100⟩ 4 6
        { live_position := some [1, 2, 3, 4] } =
      .ok (⟨none, none, some 100⟩, some (mkRow ⟨none, none, some 100⟩ 4 6 100
        (some 1) (some 2) (some 3) (some 4) none), true) :=
  ⟨⟨rfl, rfl, rfl⟩,
    ((c6_absent_field_tolerance ⟨none, none, some 100⟩ 100 3 5
        { live_velocity := some 7 } rfl).1 rfl).1,
    ((c6_absent_field_tolerance ⟨none, none, some 100⟩ 100 4 6
        { live_position := some [1, 2, 3, 4] } rfl).2 1 2 3 4 rfl rfl).1⟩

/-- The validation loop of `subscribe`: whenever some requested object is
missing from the catalogue, the loop raises `ValueError` for an offending
object (never reaching the network call), whatever the accumulated dict. -/
theorem subscribe_build_error (objects_list : List String) :
    ∀ (objs acc : List String), (∃ o ∈ objs, o ∉ objects_list) →
      ∃ bad, subscribe_build objects_list acc objs =
        .error (.subscribeValueError bad) ∧ bad ∈ objs ∧
        bad ∉ objects_list := by
  intro objs
  induction objs with
  | nil =>
    intro acc h
    obtain ⟨o, hm, -⟩ := h
    cases hm
  | cons o1 rest ih =>
    intro acc h
    by_cases h1 : o1 ∈ objects_list
    · have hrest : ∃ o ∈ rest, o ∉ objects_list := by
        obtain ⟨o, hm, hn⟩ := h
        rcases List.mem_cons.mp hm with rfl | hm'
        · exact absurd h1 hn
        · exact ⟨o, hm', hn⟩
      obtain ⟨bad, hb, hbm, hbn⟩ := ih (dictInsert acc o1) hrest
      refine ⟨bad, ?_, List.mem_cons_of_mem _ hbm, hbn⟩
      rw [subscribe_build, if_pos h1]
      exact hb
    · refine ⟨o1, ?_, List.mem_cons_self _ _, h1⟩
      rw [subscribe_build, if_neg h1]

/-- C7: requesting subscription to a set containing any class name absent
from the capability catalogue makes `subscribe` raise `ValueError` inside
the validation loop, so the result is an exception and the
`printer.objects.subscribe` network call (the `.ok` outcome) is never
issued. -/
theorem c7_subscription_validation (objects_list objs : List String)
    (h : ∃ o ∈ objs, o ∉ objects_list) :
    ∃ bad, subscribe objects_list objs =
      .error (.subscribeValueError bad) ∧ bad ∈ objs ∧
      bad ∉ objects_list :=
  subscribe_build_error objects_list objs [] h

/-- Witness for C7: requesting `gcode_move` against a catalogue that only
advertises `motion_report` and `print_stats`. -/
theorem c7_subscription_validation_witness :
    (∃ o ∈ ["motion_report", "gcode_move"],
      o ∉ ["motion_report", "print_stats"]) ∧
    ∃ bad, subscribe ["motion_report", "print_stats"]
        ["motion_report", "gcode_move"] =
      .error (.subscribeValueError bad) ∧
      bad ∈ ["motion_report", "gcode_move"] ∧
      bad ∉ ["motion_report", "print_stats"] :=
  ⟨by decide,
    c7_subscription_validation ["motion_report", "print_stats"]
      ["motion_report", "gcode_move"] (by decide)⟩

/-- C8 (evaluating the code at the failing input): a notification whose
method is not `"notify_status_update"` makes `on_notification` raise
`UnboundLocalError` for the local `timestamp` — the diagnostic f-string at
line 118 reads `timestamp`, which is assigned only inside the
recognized-method branch, so the `NotImplementedError` at line 119 that was
meant to name the offending method is never reached. The session still
aborts, but with the wrong exception and without the intended diagnostic. -/
theorem c8_unknown_method_unbound_local :
    on_notification (fun _ => 0) 0 PMDState.init
        ⟨"notify_proc_stat_update", [], 3⟩ =
      ([], .error (.unboundLocalError "timestamp")) ∧
    ∀ m : String, PyError.unboundLocalError "timestamp" ≠
      .unhandledClassError 3 m := by
  constructor
  · rfl
  · intro m h
    cases h

/-- C9 (amended): whenever `motion_report` returns at all (raises no
exception), its return value is `True` — both when a row is emitted and
when the origin is absent and the sample is silently dropped, so the boolean
does not distinguish the two outcomes. (On a malformed `live_position` with
the origin set it raises instead of returning; see the counterexample.) -/
theorem c9_returns_true_when_no_raise (st : PMDState) (rectime : ℕ) (ts : ℚ)
    (d : EventData) (res : PMDState × Option Row × Bool)
    (h : motion_report st rectime ts d = .ok res) :
    res.2.2 = true ∧ (st.time_offset = none → res = (st, none, true)) := by
  cases hoff : st.time_offset with
  | none =>
    rw [motion_report_no_origin _ _ _ _ hoff] at h
    injection h with h
    subst h
    exact ⟨rfl, fun _ => rfl⟩
  | some off =>
    refine ⟨?_, fun hn => Option.noConfusion hn⟩
    rw [motion_report_origin_eq _ _ _ _ _ hoff] at h
    rcases hp : d.live_position with _ | ⟨_ | ⟨x, _ | ⟨y, _ | ⟨z, _ | ⟨e, _ | ⟨w, l⟩⟩⟩⟩⟩⟩ <;>
      rw [hp] at h <;> first
      | (injection h with h; subst h; rfl)
      | simp at h

/-- Witness for C9 at a dropped sample: origin absent, so `motion_report`
returns with no row and the boolean `True`. -/
theorem c9_returns_true_when_no_raise_witness :
    motion_report PMDState.init 3 5 { live_velocity := some 7 } =
      .ok (PMDState.init, none, true) ∧
    ((PMDState.init, (none : Option Row), true).2.2 = true ∧
      (PMDState.init.time_offset = none →
        (PMDState.init, (none : Option Row), true) =
          (PMDState.init, none, true))) :=
  ⟨rfl, c9_returns_true_when_no_raise PMDState.init 3 5
    { live_velocity := some 7 } (PMDState.init, none, true) rfl⟩

/-- Counterexample for C9 as stated: with the origin set and a two-element
`live_position`, `motion_report` does not return `True` (or anything) — the
unpacking `x, y, z, e = pos` raises `ValueError`. -/
theorem c9_returns_true_cex :
    motion_report ⟨none, none, some 0⟩ 6 5
        { live_position := some [1, 2] } =
      .error (.unpackValueError 4 2) := by
  rfl

/-- C10: with the origin set and `live_position` present as the list `l`,
`motion_report` returns (raises nothing) exactly when `l` has four elements;
any other length is not tolerated as an absent field but raises the
unpacking `ValueError`. -/
theorem c10_live_position_unpack (st : PMDState) (off : ℚ) (rectime : ℕ)
    (ts : ℚ) (d : EventData) (l : List ℚ) (hoff : st.time_offset = some off)
    (hp : d.live_position = some l) :
    ((∃ res, motion_report st rectime ts d = .ok res) ↔ l.length = 4) ∧
    (l.length ≠ 4 →
      motion_report st rectime ts d =
        .error (.unpackValueError 4 l.length)) := by
  rw [motion_report_origin_eq _ _ _ _ _ hoff, hp]
  rcases l with _ | ⟨x, _ | ⟨y, _ | ⟨z, _ | ⟨e, _ | ⟨w, l'⟩⟩⟩⟩⟩ <;>
    constructor <;>
    simp [List.length_cons]

/-- Witness for C10 at a three-element position: the error branch fires. -/
theorem c10_live_position_unpack_witness :
    ((⟨none, none, some 1⟩ : PMDState).time_offset = some 1 ∧
      ({ live_position := some [1, 2, 3] } : EventData).live_position =
        some [1, 2, 3]) ∧
    (((∃ res, motion_report ⟨none, none, some 1⟩ 6 5
          { live_position := some [1, 2, 3] } = .ok res) ↔
        ([1, 2, 3] : List ℚ).length = 4) ∧
      (([1, 2, 3] : List ℚ).length ≠ 4 →
        motion_report ⟨none, none, some 1⟩ 6 5
            { live_position := some [1, 2, 3] } =
          .error (.unpackValueError 4 ([1, 2, 3] : List ℚ).length))) :=
  ⟨⟨rfl, rfl⟩, c10_live_position_unpack ⟨none, none, some 1⟩ 1 6 5
    { live_position := some [1, 2, 3] } [1, 2, 3] rfl rfl⟩

end Posdata
